import Mathlib

/-!
Verification of the connect-call-client session core.

This file gives a shallow embedding, in Lean 4, of the parts of the
`connect-call-client` repository that the checked claims are about:

* `ConnectionMonitor.ts` — round-trip-time sampling and quality
  classification (`analyze`, `handleResponse`, the `QualityRange` table);
* `RoomClient.ts` (the revision keyed by `ProducerLabel`, whose
  `state`-event handler reconciles the consumer registry) — the consumer
  registry and `updateOrMakeConsumer`, the local producer operations
  `produce` / `closeProducer` / `pauseVideo` / `resumeVideo` /
  `pauseAudio` / `resumeAudio` and the track-"ended" listener;
* `useConnectCall.ts` — the hook's disconnect/reconnect state machine.

JavaScript numbers are embedded as `Int` (timestamps, millisecond
round-trip times) and `ℚ` (the computed mean, which JS computes with
float division; all comparisons performed by the source are far from the
scale at which float rounding could flip them).  Mutable object identity
(MediaStream / transport-consumer objects) is embedded as `Nat` tags
drawn from an explicit fresh-tag counter.  Async effects (socket emits,
transport calls) are embedded as explicit effect lists returned next to
the new state.
-/

namespace CCC

/-! ## ConnectionMonitor (src/ConnectionMonitor.ts) -/

/-- Quality levels, `ConnectionStateQuality` in `API.ts`. -/
inductive ConnectionStateQuality
  | excellent
  | good
  | average
  | poor
  | bad
  | unknown
deriving DecidableEq

/-- Order of the `qualities` array in `ConnectionMonitor.ts`: the loop in
`analyze` scans it front to back. -/
def qualities : List ConnectionStateQuality :=
  [.excellent, .good, .average, .poor, .bad, .unknown]

/-- Value of an entry of the `QualityRange` table: a finite millisecond
bound, `Infinity` (for `bad`) or `NaN` (for `unknown`). -/
inductive RangeVal
  | finite (bound : ℚ)
  | infinity
  | nan
deriving DecidableEq

/-- The `QualityRange` table of `ConnectionMonitor.ts`. -/
def QualityRange : ConnectionStateQuality → RangeVal
  | .excellent => .finite 50
  | .good => .finite 150
  | .average => .finite 500
  | .poor => .finite 1000
  | .bad => .infinity
  | .unknown => .nan

/-- The JS comparison `average <= QualityRange[quality]`: true against
`Infinity`, false against `NaN`. -/
def leRange (a : ℚ) : RangeVal → Bool
  | .finite bound => a ≤ bound
  | .infinity => true
  | .nan => false

/-- One entry of `this.results`: interface `Result` in
`ConnectionMonitor.ts` (`checkTime` is the probe's send timestamp, `ms`
the measured round trip). -/
structure PingResult where
  checkTime : Int
  ms : Int
deriving DecidableEq

/-- `RESULTS_TTL_MS` in `ConnectionMonitor.ts`. -/
def RESULTS_TTL_MS : Int := 5000

/-- The `_currentQuality` record: `{ quality, ping }`; `ping` is `NaN`
initially (embedded as `none`) and `Math.round(average)` after. -/
structure MonitorQuality where
  quality : ConnectionStateQuality
  ping : Option Int
deriving DecidableEq

/-- The mutable state of a `ConnectionMonitor`: the sample list and the
current quality record. -/
structure MonitorState where
  results : List PingResult
  currentQuality : MonitorQuality
deriving DecidableEq

/-- Initial `ConnectionMonitor` state: no samples,
`{ quality: unknown, ping: NaN }`. -/
def initialMonitorState : MonitorState :=
  { results := [], currentQuality := { quality := .unknown, ping := none } }

/-- The loop of `analyze` that picks the first quality in `qualities`
whose range bound the average does not exceed. -/
def selectQualityGo (average : ℚ) : List ConnectionStateQuality → ConnectionStateQuality
  | [] => .unknown
  | q :: rest => if leRange average (QualityRange q) then q else selectQualityGo average rest

/-- `let newQuality = unknown; for (quality of qualities) if (average <=
QualityRange[quality]) { newQuality = quality; break; }`. -/
def selectQuality (average : ℚ) : ConnectionStateQuality :=
  selectQualityGo average qualities

/-- The expired-sample filter at the top of `analyze`:
`this.results.filter((r) => r.checkTime > limit)` with
`limit = now - RESULTS_TTL_MS`. -/
def liveResults (now : Int) (results : List PingResult) : List PingResult :=
  results.filter (fun r => now - RESULTS_TTL_MS < r.checkTime)

/-- `results.map((r) => r.ms).reduce((a, b) => a + b) / results.length`
(only evaluated by the source when the list has at least 5 elements). -/
def averageMs (results : List PingResult) : ℚ :=
  ((results.map fun r => (r.ms : ℚ)).sum) / (results.length : ℚ)

/-- Result of one `analyze` call: the new monitor state and the quality
event emitted on `this.emitter`, if any. -/
structure AnalyzeResult where
  state : MonitorState
  emitted : Option MonitorQuality
deriving DecidableEq

/-- `ConnectionMonitor.analyze`: prune expired samples, require at least
5 live samples, classify the mean through the `qualities` loop, and emit
a `quality` event only when the level changed. -/
def analyze (now : Int) (st : MonitorState) : AnalyzeResult :=
  let results := liveResults now st.results
  if results.length < 5 then
    { state := { results := results, currentQuality := st.currentQuality }, emitted := none }
  else
    let average := averageMs results
    let newQuality := selectQuality average
    if st.currentQuality.quality ≠ newQuality then
      let q : MonitorQuality := { quality := newQuality, ping := some (round average) }
      { state := { results := results, currentQuality := q }, emitted := some q }
    else
      { state := { results := results, currentQuality := st.currentQuality }, emitted := none }

/-- `ConnectionMonitor.handleResponse` for a well-formed echo: push
`{ checkTime: startTime, ms: now - startTime }` and run `analyze`. -/
def handleResponse (now startTime : Int) (st : MonitorState) : AnalyzeResult :=
  analyze now { st with results := st.results ++ [{ checkTime := startTime, ms := now - startTime }] }

/-- Spec-side rendering of the threshold table (the claim's words):
excellent ≤ 50 ms, good ≤ 150 ms, average ≤ 500 ms, poor ≤ 1000 ms, bad
otherwise, compared in ascending order. -/
def specQualityTable (mean : ℚ) : ConnectionStateQuality :=
  if mean ≤ 50 then .excellent
  else if mean ≤ 150 then .good
  else if mean ≤ 500 then .average
  else if mean ≤ 1000 then .poor
  else .bad

/-- Processing a list of `(now, startTime)` echo responses in order,
counting emitted quality events. -/
def runResponses (st : MonitorState) : List (Int × Int) → MonitorState × Nat
  | [] => (st, 0)
  | (now, startTime) :: rest =>
    let r := handleResponse now startTime st
    let (finalSt, n) := runResponses r.state rest
    (finalSt, (if r.emitted.isSome then 1 else 0) + n)

theorem selectQuality_eq_specTable (average : ℚ) :
    selectQuality average = specQualityTable average := by
  unfold selectQuality qualities specQualityTable
  by_cases h50 : average ≤ 50 <;> by_cases h150 : average ≤ 150 <;>
    by_cases h500 : average ≤ 500 <;> by_cases h1000 : average ≤ 1000 <;>
    simp [selectQualityGo, leRange, QualityRange, h50, h150, h500, h1000]

theorem analyze_results_pruned (now : Int) (st : MonitorState) :
    (analyze now st).state.results = liveResults now st.results := by
  unfold analyze
  by_cases h : (liveResults now st.results).length < 5
  · simp [h]
  · by_cases hq : st.currentQuality.quality
        ≠ selectQuality (averageMs (liveResults now st.results)) <;> simp [h, hq]

theorem analyze_emits_iff (now : Int) (st : MonitorState) :
    (analyze now st).emitted.isSome = true ↔
      (5 ≤ (liveResults now st.results).length ∧
        selectQuality (averageMs (liveResults now st.results)) ≠ st.currentQuality.quality) := by
  unfold analyze
  by_cases h : (liveResults now st.results).length < 5
  · have h5 : ¬ 5 ≤ (liveResults now st.results).length := by omega
    simp [h, h5]
  · have h5 : 5 ≤ (liveResults now st.results).length := by omega
    by_cases hq : st.currentQuality.quality
        = selectQuality (averageMs (liveResults now st.results))
    · simp [h, hq, h5]
    · have hq2 : selectQuality (averageMs (liveResults now st.results))
          ≠ st.currentQuality.quality := fun e => hq e.symm
      simp [h, hq, hq2, h5]

/-- Five samples with a constant 50 ms round trip, all fresh at time 0. -/
def fiftyState : MonitorState :=
  { results := [⟨0, 50⟩, ⟨0, 50⟩, ⟨0, 50⟩, ⟨0, 50⟩, ⟨0, 50⟩],
    currentQuality := { quality := .unknown, ping := none } }

/-- The spec's worked example: samples of 40, 45, 42, 48 and 44 ms. -/
def specExampleState : MonitorState :=
  { results := [⟨0, 40⟩, ⟨0, 45⟩, ⟨0, 42⟩, ⟨0, 48⟩, ⟨0, 44⟩],
    currentQuality := { quality := .unknown, ping := none } }

theorem fiftyState_emits :
    (analyze 0 fiftyState).emitted = some { quality := .excellent, ping := some 50 } := by
  norm_num [analyze, liveResults, averageMs, selectQuality, selectQualityGo, leRange,
    QualityRange, RESULTS_TTL_MS, fiftyState, qualities, round_eq]
  simp

theorem specExample_average : averageMs specExampleState.results = 219 / 5 := by
  norm_num [averageMs, specExampleState]

theorem specExample_emits :
    (analyze 0 specExampleState).emitted = some { quality := .excellent, ping := some 44 } := by
  norm_num [analyze, liveResults, averageMs, selectQuality, selectQualityGo, leRange,
    QualityRange, RESULTS_TTL_MS, specExampleState, qualities, round_eq]
  simp

/-- C3: the quality classifier discards expired samples, stays silent (and
keeps its previous quality) below 5 live samples, classifies the mean
through the ascending threshold table with boundaries inclusive, a
constant 50 ms history classifies as excellent, and the spec's worked
example (40, 45, 42, 48, 44 ms) has mean 219/5 = 43.8 ms and classifies
as excellent. -/
theorem quality_classifier_correct (now : Int) (st : MonitorState) :
    ((analyze now st).state.results = liveResults now st.results) ∧
    ((analyze now st).emitted.isSome = true → 5 ≤ (liveResults now st.results).length) ∧
    ((liveResults now st.results).length < 5 →
      (analyze now st).emitted = none ∧
      (analyze now st).state.currentQuality = st.currentQuality) ∧
    (5 ≤ (liveResults now st.results).length →
      (analyze now st).state.currentQuality.quality
        = specQualityTable (averageMs (liveResults now st.results))) ∧
    ((analyze 0 fiftyState).emitted
        = some { quality := .excellent, ping := some 50 }) ∧
    (averageMs specExampleState.results = 219 / 5) ∧
    ((analyze 0 specExampleState).emitted
        = some { quality := .excellent, ping := some 44 }) := by
  refine ⟨analyze_results_pruned now st, ?_, ?_, ?_,
    fiftyState_emits, specExample_average, specExample_emits⟩
  · intro h
    exact ((analyze_emits_iff now st).mp h).1
  · intro h
    unfold analyze
    simp [h]
  · intro h
    have h5 : ¬ (liveResults now st.results).length < 5 := by omega
    rw [← selectQuality_eq_specTable]
    unfold analyze
    by_cases hq : st.currentQuality.quality
        = selectQuality (averageMs (liveResults now st.results)) <;> simp [h5, hq]

theorem quality_classifier_correct_witness :
    ((analyze 0 initialMonitorState).emitted = none ∧
      (analyze 0 initialMonitorState).state.currentQuality
        = initialMonitorState.currentQuality) ∧
    (analyze 0 fiftyState).state.currentQuality.quality
      = specQualityTable (averageMs (liveResults 0 fiftyState.results)) :=
  ⟨(quality_classifier_correct 0 initialMonitorState).2.2.1 (by decide),
   (quality_classifier_correct 0 fiftyState).2.2.2.1 (by decide)⟩

/-- The C4 scenario: ten probe echoes, each with a 100 ms round trip
(classifying as good), arriving once per second. -/
def tenGoodProbes : List (Int × Int) :=
  [(100, 0), (1100, 1000), (2100, 2000), (3100, 3000), (4100, 4000),
   (5100, 5000), (6100, 6000), (7100, 7000), (8100, 8000), (9100, 9000)]

theorem tenGoodProbes_run :
    runResponses initialMonitorState tenGoodProbes
      = ({ results := [⟨5000, 100⟩, ⟨6000, 100⟩, ⟨7000, 100⟩, ⟨8000, 100⟩, ⟨9000, 100⟩],
           currentQuality := { quality := .good, ping := some 100 } }, 1) := by
  norm_num [runResponses, handleResponse, analyze, liveResults, averageMs, selectQuality,
    selectQualityGo, leRange, QualityRange, RESULTS_TTL_MS, initialMonitorState,
    tenGoodProbes, qualities, round_eq]
  simp
  norm_num [round_eq]

theorem fiftyState_selects_excellent :
    selectQuality (averageMs (liveResults 0 fiftyState.results)) = .excellent := by
  norm_num [selectQuality, selectQualityGo, leRange, QualityRange, averageMs,
    liveResults, RESULTS_TTL_MS, fiftyState, qualities]

/-- C4: the quality event is edge-triggered — `analyze` emits exactly when
at least 5 live samples exist and the newly computed level differs from
the previously held one, the emitted event carries the new level, and a
run of ten consecutive probes all classifying as good emits exactly one
event. -/
theorem quality_events_edge_triggered (now : Int) (st : MonitorState) :
    ((analyze now st).emitted.isSome = true ↔
      (5 ≤ (liveResults now st.results).length ∧
        selectQuality (averageMs (liveResults now st.results)) ≠ st.currentQuality.quality)) ∧
    ((analyze now st).emitted.isSome = true →
      (analyze now st).state.currentQuality.quality
        = selectQuality (averageMs (liveResults now st.results)) ∧
      (analyze now st).emitted = some (analyze now st).state.currentQuality) ∧
    ((runResponses initialMonitorState tenGoodProbes).2 = 1 ∧
      (runResponses initialMonitorState tenGoodProbes).1.currentQuality.quality = .good) := by
  refine ⟨analyze_emits_iff now st, ?_, by rw [tenGoodProbes_run], by rw [tenGoodProbes_run]⟩
  intro h
  obtain ⟨h5, hq⟩ := (analyze_emits_iff now st).mp h
  have h5n : ¬ (liveResults now st.results).length < 5 := by omega
  unfold analyze
  simp [h5n, Ne.symm hq]

theorem quality_events_edge_triggered_witness :
    (analyze 0 fiftyState).emitted.isSome = true :=
  (quality_events_edge_triggered 0 fiftyState).1.mpr
    ⟨by decide, by rw [fiftyState_selects_excellent]; decide⟩

/-! ## RoomClient consumer registry (src/RoomClient.ts, the revision whose
`state`-event handler reconciles `this.consumers` via `updateOrMakeConsumer`) -/

/-- `ProducerLabel` in `API.ts`. -/
inductive ProducerLabel
  | video
  | audio
  | screenshare
deriving DecidableEq

/-- `MediaKind` of mediasoup: audio or video. -/
inductive MediaKind
  | audio
  | video
deriving DecidableEq

/-- `PublishedConsumerInfo` in `API.ts` (the `rtpParameters` field is an
opaque blob the client never inspects and is omitted). -/
structure PublishedConsumerInfo where
  id : String
  producerId : String
  kind : MediaKind
  producerPaused : Bool
  paused : Bool
deriving DecidableEq

/-- A mediasoup transport consumer as the client observes it: its id, its
mutable `paused` flag, and a tag standing for the JS object identity.
`consumerTransport.consume(consumerData)` yields a fresh object whose id
is `consumerData.id` and whose initial `paused` is seeded from the
descriptor (as the repository's mediasoup mock implements it). -/
structure TransportConsumer where
  id : String
  tag : Nat
  paused : Bool
deriving DecidableEq

/-- One value of the `this.consumers` map: `{ consumer, stream }`; the
stream is the `new MediaStream()` created for this consumer, embedded by
its object-identity tag. -/
structure ConsumerEntry where
  consumer : TransportConsumer
  stream : Nat
deriving DecidableEq

/-- The `this.consumers : Map<string, { consumer, stream }>` registry,
with a fresh-tag counter supplying object identities. -/
structure ConsumerRegistry where
  consumers : List (String × ConsumerEntry)
  nextTag : Nat
deriving DecidableEq

/-- `Map.prototype.get`. -/
def mapGet (m : List (String × ConsumerEntry)) (id : String) : Option ConsumerEntry :=
  (m.find? fun p => p.1 == id).map fun p => p.2

/-- `Map.prototype.set`: replaces the value when the key is present,
otherwise appends (JS Map insertion order). -/
def mapSet (m : List (String × ConsumerEntry)) (id : String) (e : ConsumerEntry) :
    List (String × ConsumerEntry) :=
  if m.any fun p => p.1 == id then m.map fun p => if p.1 == id then (id, e) else p
  else m ++ [(id, e)]

/-- Calls `updateOrMakeConsumer` makes on the transport: pausing or
resuming an existing consumer, or `consumerTransport.consume`. -/
inductive ConsumerEffect
  | pauseConsumer (id : String)
  | resumeConsumer (id : String)
  | transportConsume (id : String)
deriving DecidableEq

/-- The record `{ stream, paused, id }` returned by
`updateOrMakeConsumer` into the emitted `peers` event. -/
structure ConsumerView where
  stream : Nat
  paused : Bool
  id : String
deriving DecidableEq

/-- State, transport calls and return value of one `updateOrMakeConsumer`
run. -/
structure UpdateResult where
  registry : ConsumerRegistry
  effects : List ConsumerEffect
  view : ConsumerView
deriving DecidableEq

/-- `RoomClient.updateOrMakeConsumer`: reuse the registered consumer for
the descriptor's id if there is one — pausing/resuming its transport
consumer only when the descriptor's `paused` flag differs from the
consumer's current one — otherwise consume a fresh transport consumer,
wrap its track in a fresh `MediaStream`, and register both. -/
def updateOrMakeConsumer (reg : ConsumerRegistry) (data : PublishedConsumerInfo) : UpdateResult :=
  match mapGet reg.consumers data.id with
  | some entry =>
    if data.paused && !entry.consumer.paused then
      let consumer := { entry.consumer with paused := true }
      { registry :=
          { reg with consumers := mapSet reg.consumers data.id { entry with consumer := consumer } },
        effects := [.pauseConsumer data.id],
        view := { stream := entry.stream, paused := consumer.paused, id := consumer.id } }
    else if !data.paused && entry.consumer.paused then
      let consumer := { entry.consumer with paused := false }
      { registry :=
          { reg with consumers := mapSet reg.consumers data.id { entry with consumer := consumer } },
        effects := [.resumeConsumer data.id],
        view := { stream := entry.stream, paused := consumer.paused, id := consumer.id } }
    else
      { registry := reg, effects := [],
        view := { stream := entry.stream, paused := entry.consumer.paused,
                  id := entry.consumer.id } }
  | none =>
    let consumer : TransportConsumer :=
      { id := data.id, tag := reg.nextTag, paused := data.paused }
    let stream := reg.nextTag + 1
    { registry :=
        { consumers := mapSet reg.consumers data.id { consumer := consumer, stream := stream },
          nextTag := reg.nextTag + 2 },
      effects := [.transportConsume data.id],
      view := { stream := stream, paused := consumer.paused, id := consumer.id } }

/-- `PublishedParticipant` in `API.ts`, restricted to its consumer
descriptors (the `user` and `status` fields are copied verbatim into the
emitted `peers` event and never touch the registry). -/
structure PublishedParticipant where
  consumers : List (ProducerLabel × PublishedConsumerInfo)
deriving DecidableEq

/-- `PublishedRoomState` in `API.ts`: the room-state snapshot. -/
structure PublishedRoomState where
  participants : List (String × PublishedParticipant)
deriving DecidableEq

/-- All consumer descriptors of a snapshot, in the order the `state`
handler's nested `Object.entries` iteration visits them. -/
def snapshotDescriptors (s : PublishedRoomState) : List PublishedConsumerInfo :=
  (s.participants.map fun p => p.2.consumers.map Prod.snd).flatten

/-- The consumer ids named by a snapshot's descriptors. -/
def snapshotIds (s : PublishedRoomState) : List String :=
  (snapshotDescriptors s).map PublishedConsumerInfo.id

/-- The ids held in the consumer registry. -/
def registryIds (reg : ConsumerRegistry) : List String :=
  reg.consumers.map Prod.fst

/-- Running `updateOrMakeConsumer` over a descriptor list in order, each
call completing before the next starts (the fully applied semantics of
one snapshot). -/
def applyDescriptors : ConsumerRegistry → List PublishedConsumerInfo → ConsumerRegistry
  | reg, [] => reg
  | reg, d :: rest => applyDescriptors (updateOrMakeConsumer reg d).registry rest

/-- Fully applying one snapshot delivered on the `state` event. -/
def applyRoomState (reg : ConsumerRegistry) (s : PublishedRoomState) : ConsumerRegistry :=
  applyDescriptors reg (snapshotDescriptors s)

/-- A snapshot with a single participant carrying a single consumer. -/
def singletonSnapshot (peer : String) (label : ProducerLabel) (d : PublishedConsumerInfo) :
    PublishedRoomState :=
  { participants := [(peer, { consumers := [(label, d)] })] }

/-- One concrete consumer descriptor. -/
def exampleDescriptor : PublishedConsumerInfo :=
  { id := "c1", producerId := "p1", kind := .video, producerPaused := false, paused := false }

/-- A concrete snapshot naming the single consumer `c1`. -/
def exampleSnapshot : PublishedRoomState :=
  singletonSnapshot "peer1" .video exampleDescriptor

/-- The empty snapshot: no participants, hence no consumer descriptors. -/
def emptySnapshot : PublishedRoomState := { participants := [] }

/-- The registry of a freshly constructed `RoomClient`: empty. -/
def initialRegistry : ConsumerRegistry := { consumers := [], nextTag := 0 }

theorem mapGet_eq_none_iff (m : List (String × ConsumerEntry)) (id : String) :
    mapGet m id = none ↔ (m.any fun p => p.1 == id) = false := by
  unfold mapGet
  constructor
  · intro h
    have hf : m.find? (fun p => p.1 == id) = none := by
      cases hf : m.find? (fun p => p.1 == id) <;> simp [hf] at h ⊢
    rw [List.any_eq_false]
    intro x hx
    simpa using List.find?_eq_none.mp hf x hx
  · intro h
    have hf : m.find? (fun p => p.1 == id) = none := by
      rw [List.find?_eq_none]
      intro x hx
      simpa using List.any_eq_false.mp h x hx
    simp [hf]

theorem find?_append_of_none {m l : List (String × ConsumerEntry)}
    {p : String × ConsumerEntry → Bool} (h : m.find? p = none) :
    (m ++ l).find? p = l.find? p := by
  induction m with
  | nil => simp
  | cons a m ih =>
    cases hpa : p a
    · rw [List.find?_cons_of_neg _ (by simp [hpa])] at h
      rw [List.cons_append, List.find?_cons_of_neg _ (by simp [hpa])]
      exact ih h
    · rw [List.find?_cons_of_pos _ hpa] at h
      cases h

theorem mapSet_of_miss {m : List (String × ConsumerEntry)} {id : String} (e : ConsumerEntry)
    (h : (m.any fun p => p.1 == id) = false) : mapSet m id e = m ++ [(id, e)] := by
  simp only [mapSet, h]
  simp

theorem mapSet_of_hit {m : List (String × ConsumerEntry)} {id : String} (e : ConsumerEntry)
    (h : (m.any fun p => p.1 == id) = true) :
    mapSet m id e = m.map fun p => if p.1 == id then (id, e) else p := by
  simp only [mapSet, h]
  simp

theorem find?_map_replace {m : List (String × ConsumerEntry)} {id : String} (e : ConsumerEntry)
    (h : (m.any fun p => p.1 == id) = true) :
    (m.map fun p => if p.1 == id then (id, e) else p).find? (fun p => p.1 == id)
      = some (id, e) := by
  induction m with
  | nil => simp at h
  | cons a m ih =>
    cases hpa : a.1 == id
    · have h2 : (m.any fun p => p.1 == id) = true := by simpa [hpa] using h
      rw [List.map_cons]
      rw [List.find?_cons_of_neg _ (by simp [hpa])]
      exact ih h2
    · rw [List.map_cons]
      simp only [hpa, if_true]
      rw [List.find?_cons_of_pos _ (by simp)]

theorem mapGet_set_self (m : List (String × ConsumerEntry)) (id : String) (e : ConsumerEntry) :
    mapGet (mapSet m id e) id = some e := by
  cases h : (m.any fun p => p.1 == id)
  · rw [mapSet_of_miss e h]
    unfold mapGet
    rw [find?_append_of_none (by
      rw [List.find?_eq_none]
      intro x hx
      simpa using List.any_eq_false.mp h x hx)]
    simp
  · rw [mapSet_of_hit e h]
    unfold mapGet
    rw [find?_map_replace e h]
    rfl

theorem keys_map_replace (id : String) (e : ConsumerEntry)
    (m : List (String × ConsumerEntry)) :
    ((m.map fun p => if p.1 == id then (id, e) else p).map Prod.fst) = m.map Prod.fst := by
  induction m with
  | nil => rfl
  | cons a m ih =>
    cases hpa : a.1 == id
    · simp only [List.map_cons, hpa]
      rw [if_neg (by simp), ih]
    · have ha : a.1 = id := eq_of_beq hpa
      simp only [List.map_cons, hpa, if_true]
      rw [ih]
      simp [ha]

theorem mem_registryIds_update (reg : ConsumerRegistry) (d : PublishedConsumerInfo)
    (x : String) :
    x ∈ registryIds (updateOrMakeConsumer reg d).registry ↔
      x ∈ registryIds reg ∨ x = d.id := by
  unfold updateOrMakeConsumer
  cases hget : mapGet reg.consumers d.id with
  | none =>
    have hany : (reg.consumers.any fun p => p.1 == d.id) = false :=
      (mapGet_eq_none_iff _ _).mp hget
    simp only [registryIds, mapSet_of_miss _ hany]
    simp
  | some entry =>
    have hfind : ∃ pr, reg.consumers.find? (fun p => p.1 == d.id) = some pr := by
      unfold mapGet at hget
      cases hf : reg.consumers.find? (fun p => p.1 == d.id)
      · rw [hf] at hget
        cases hget
      · exact ⟨_, rfl⟩
    obtain ⟨pr, hpr⟩ := hfind
    have hmem := List.mem_of_find?_eq_some hpr
    have hb : (pr.1 == d.id) = true := by simpa using List.find?_some hpr
    have hkey : pr.1 = d.id := eq_of_beq hb
    have hid : d.id ∈ registryIds reg := by
      unfold registryIds
      rw [← hkey]
      exact List.mem_map_of_mem Prod.fst hmem
    have hany : (reg.consumers.any fun p => p.1 == d.id) = true :=
      List.any_eq_true.mpr ⟨pr, hmem, hb⟩
    have hkeys : ∀ e2 : ConsumerEntry,
        registryIds { reg with consumers := mapSet reg.consumers d.id e2 } = registryIds reg := by
      intro e2
      simp only [registryIds, mapSet_of_hit e2 hany]
      exact keys_map_replace d.id e2 reg.consumers
    simp only [hget]
    split_ifs <;> simp only [hkeys] <;>
      exact ⟨fun h => Or.inl h, fun h => h.elim id fun hx => hx ▸ hid⟩

theorem mem_registryIds_applyDescriptors (ds : List PublishedConsumerInfo) :
    ∀ (reg : ConsumerRegistry) (x : String),
      x ∈ registryIds (applyDescriptors reg ds) ↔
        x ∈ registryIds reg ∨ x ∈ ds.map PublishedConsumerInfo.id := by
  induction ds with
  | nil =>
    intro reg x
    simp [applyDescriptors]
  | cons d rest ih =>
    intro reg x
    rw [applyDescriptors, ih, mem_registryIds_update]
    simp only [List.map_cons, List.mem_cons]
    tauto

/-- C1 counterexample: after applying the snapshot naming the single
consumer `c1` and then fully applying the empty snapshot, the registry
still holds `c1` — the registry id set does not equal the (empty) id set
of the last fully applied snapshot, so the empty snapshot does not clear
the consumers. -/
theorem consumer_registry_claim_cex :
    ¬ (∀ x, x ∈ registryIds (applyRoomState (applyRoomState initialRegistry exampleSnapshot)
              emptySnapshot)
          ↔ x ∈ snapshotIds emptySnapshot) := by
  intro h
  exact absurd ((h "c1").mp (by decide)) (by decide)

/-- C1 amended: after a snapshot is fully applied, the registry id set is
the union of the previous registry ids and the snapshot's descriptor ids
— every consumer named in the snapshot is present, but consumers absent
from the snapshot are retained, and applying an empty snapshot leaves the
registry unchanged. -/
theorem consumer_registry_union (reg : ConsumerRegistry) (s : PublishedRoomState) :
    (∀ x, x ∈ registryIds (applyRoomState reg s) ↔
        x ∈ registryIds reg ∨ x ∈ snapshotIds s) ∧
    applyRoomState reg emptySnapshot = reg := by
  constructor
  · intro x
    unfold applyRoomState snapshotIds
    exact mem_registryIds_applyDescriptors _ reg x
  · rfl

theorem update_hit (reg : ConsumerRegistry) (d : PublishedConsumerInfo) (entry : ConsumerEntry)
    (h : mapGet reg.consumers d.id = some entry) :
    (updateOrMakeConsumer reg d).view.stream = entry.stream ∧
    mapGet (updateOrMakeConsumer reg d).registry.consumers d.id
      = some { consumer := { entry.consumer with paused := d.paused }, stream := entry.stream } ∧
    ((updateOrMakeConsumer reg d).effects ≠ [] ↔ d.paused ≠ entry.consumer.paused) := by
  obtain ⟨⟨cid, ctag, cpaused⟩, cstream⟩ := entry
  unfold updateOrMakeConsumer
  rw [h]
  cases hd : d.paused <;> cases hc : cpaused <;>
    simp_all [mapGet_set_self]

theorem update_noop (reg : ConsumerRegistry) (d : PublishedConsumerInfo) (entry : ConsumerEntry)
    (h : mapGet reg.consumers d.id = some entry)
    (hp : entry.consumer.paused = d.paused) :
    updateOrMakeConsumer reg d
      = { registry := reg, effects := [],
          view := { stream := entry.stream, paused := entry.consumer.paused,
                    id := entry.consumer.id } } := by
  unfold updateOrMakeConsumer
  rw [h]
  cases hd : d.paused <;> simp_all

/-- C2 amended/confirmed core: when a consumer with the descriptor's id is
already registered, `updateOrMakeConsumer` keeps the registered consumer
object (same identity tag, same id) and the same MediaStream, returns
that stream, and touches the transport (pause/resume) exactly when the
descriptor's paused flag differs from the consumer's current one; and a
second application of the same descriptor right after a first one is a
complete no-op — same registry, no transport calls, same stream in the
returned view. -/
theorem consumer_update_idempotent (reg : ConsumerRegistry) (d : PublishedConsumerInfo) :
    (∀ entry, mapGet reg.consumers d.id = some entry →
      ((updateOrMakeConsumer reg d).view.stream = entry.stream ∧
        mapGet (updateOrMakeConsumer reg d).registry.consumers d.id
          = some { consumer := { entry.consumer with paused := d.paused },
                   stream := entry.stream } ∧
        ((updateOrMakeConsumer reg d).effects ≠ [] ↔ d.paused ≠ entry.consumer.paused))) ∧
    ((updateOrMakeConsumer (updateOrMakeConsumer reg d).registry d).registry
        = (updateOrMakeConsumer reg d).registry ∧
      (updateOrMakeConsumer (updateOrMakeConsumer reg d).registry d).effects = [] ∧
      (updateOrMakeConsumer (updateOrMakeConsumer reg d).registry d).view.stream
        = (updateOrMakeConsumer reg d).view.stream) := by
  refine ⟨fun entry h => update_hit reg d entry h, ?_⟩
  cases hget : mapGet reg.consumers d.id with
  | some entry =>
    obtain ⟨hs, hget2, _⟩ := update_hit reg d entry hget
    have hnoop := update_noop (updateOrMakeConsumer reg d).registry d _ hget2 rfl
    rw [hnoop]
    exact ⟨rfl, rfl, hs.symm⟩
  | none =>
    have h1 : updateOrMakeConsumer reg d
        = { registry :=
              { consumers := mapSet reg.consumers d.id
                  { consumer := { id := d.id, tag := reg.nextTag, paused := d.paused },
                    stream := reg.nextTag + 1 },
                nextTag := reg.nextTag + 2 },
            effects := [.transportConsume d.id],
            view := { stream := reg.nextTag + 1, paused := d.paused, id := d.id } } := by
      unfold updateOrMakeConsumer
      rw [hget]
    have hget2 : mapGet (updateOrMakeConsumer reg d).registry.consumers d.id
        = some { consumer := { id := d.id, tag := reg.nextTag, paused := d.paused },
                 stream := reg.nextTag + 1 } := by
      rw [h1]
      exact mapGet_set_self _ _ _
    have hnoop := update_noop (updateOrMakeConsumer reg d).registry d _ hget2 rfl
    rw [hnoop, h1]
    exact ⟨rfl, rfl, rfl⟩

/-- A concrete registry already holding the consumer `c1` (identity tag 7,
stream tag 8, unpaused). -/
def witnessRegistry : ConsumerRegistry :=
  { consumers := [("c1", { consumer := { id := "c1", tag := 7, paused := false }, stream := 8 })],
    nextTag := 9 }

theorem consumer_update_idempotent_witness :
    (updateOrMakeConsumer witnessRegistry exampleDescriptor).view.stream = 8 ∧
    ((updateOrMakeConsumer witnessRegistry exampleDescriptor).effects ≠ []
      ↔ exampleDescriptor.paused ≠ false) :=
  have h := (consumer_update_idempotent witnessRegistry exampleDescriptor).1
    { consumer := { id := "c1", tag := 7, paused := false }, stream := 8 } (by decide)
  ⟨h.1, h.2.2⟩

/-! ## Asynchronous structure of the `state` handler (C9)

The `state` handler of `RoomClient.ts` is a plain (non-async) listener:
for each descriptor it calls `this.updateOrMakeConsumer(data)` and does
not await the returned promise.  An async JS function runs synchronously
up to its first `await`; for a descriptor whose id is already registered
the registry mutation happens before that first suspension, while for a
new id the call suspends at `await this.consumerTransport.consume(...)`
and the `this.consumers.set(...)` only runs when that promise resolves.
The model below separates the synchronous delivery pass from the later
resolution of the suspended `consume` calls. -/

/-- A consumer creation suspended at `await consumerTransport.consume`. -/
structure PendingCreate where
  data : PublishedConsumerInfo
deriving DecidableEq

/-- The registry together with the suspended creations and a count of
transport consumers created so far. -/
structure HandlerState where
  registry : ConsumerRegistry
  pending : List PendingCreate
  created : Nat
deriving DecidableEq

/-- The synchronous part of one `updateOrMakeConsumer` call inside the
`state` handler: a registry hit is applied at once (its mutation precedes
the first relevant await), a miss suspends a creation task. -/
def deliverDescriptor (st : HandlerState) (d : PublishedConsumerInfo) : HandlerState :=
  match mapGet st.registry.consumers d.id with
  | some _ => { st with registry := (updateOrMakeConsumer st.registry d).registry }
  | none => { st with pending := st.pending ++ [{ data := d }] }

/-- Synchronous processing of one delivered `state` event: the handler
iterates all descriptors without awaiting anything. -/
def deliverRoomState (st : HandlerState) (s : PublishedRoomState) : HandlerState :=
  (snapshotDescriptors s).foldl deliverDescriptor st

/-- Resolution of the oldest suspended `consume` call: the transport
consumer materializes (a fresh object), `new MediaStream()` is built and
`this.consumers.set` finally runs — overwriting whatever entry the id
has by then. -/
def resolveOldest (st : HandlerState) : HandlerState :=
  match st.pending with
  | [] => st
  | t :: rest =>
    let consumer : TransportConsumer :=
      { id := t.data.id, tag := st.registry.nextTag, paused := t.data.paused }
    let stream := st.registry.nextTag + 1
    { registry :=
        { consumers := mapSet st.registry.consumers t.data.id
            { consumer := consumer, stream := stream },
          nextTag := st.registry.nextTag + 2 },
      pending := rest,
      created := st.created + 1 }

/-- Resolving suspended creations repeatedly. -/
def resolveAllGo : Nat → HandlerState → HandlerState
  | 0, st => st
  | n + 1, st => resolveAllGo n (resolveOldest st)

/-- Resolving every currently suspended creation, oldest first. -/
def resolveAll (st : HandlerState) : HandlerState :=
  resolveAllGo st.pending.length st

/-- Handler state over a given registry with nothing in flight. -/
def handlerInit (reg : ConsumerRegistry) : HandlerState :=
  { registry := reg, pending := [], created := 0 }

/-- C9 counterexample: delivering the same one-consumer snapshot twice
back-to-back, the second delivery is processed while the first's consumer
creation is still suspended (two creations end up pending), two transport
consumers get created for the one id, and the final registry differs from
what serialized application of the two snapshots would produce — so the
handler does not run one snapshot's full diff-and-apply to completion
before the next begins. -/
theorem snapshot_application_not_serialized_cex :
    ((deliverRoomState (deliverRoomState (handlerInit initialRegistry) exampleSnapshot)
        exampleSnapshot).pending.length = 2) ∧
    ((resolveAll (deliverRoomState (deliverRoomState (handlerInit initialRegistry)
        exampleSnapshot) exampleSnapshot)).created = 2) ∧
    ((resolveAll (deliverRoomState (deliverRoomState (handlerInit initialRegistry)
        exampleSnapshot) exampleSnapshot)).registry
      ≠ applyRoomState (applyRoomState initialRegistry exampleSnapshot) exampleSnapshot) := by
  decide

/-- C9 amended: the `state` handler is not serialized — a snapshot naming
an unregistered consumer, delivered twice in quick succession, is diffed
both times against the not-yet-updated registry: both deliveries suspend
a creation for the same id (the second snapshot's processing happens
while the first's creation is pending), two transport consumers are
created, the later creation overwrites the earlier one in the registry,
while the serialized semantics would create the consumer once and reuse
it. -/
theorem snapshot_application_interleaves (reg : ConsumerRegistry)
    (d : PublishedConsumerInfo) (peer : String) (label : ProducerLabel)
    (h : mapGet reg.consumers d.id = none) :
    (deliverRoomState (deliverRoomState (handlerInit reg) (singletonSnapshot peer label d))
        (singletonSnapshot peer label d)).pending.length = 2 ∧
    (resolveAll (deliverRoomState (deliverRoomState (handlerInit reg)
        (singletonSnapshot peer label d)) (singletonSnapshot peer label d))).created = 2 ∧
    mapGet (resolveAll (deliverRoomState (deliverRoomState (handlerInit reg)
        (singletonSnapshot peer label d)) (singletonSnapshot peer label d))).registry.consumers
        d.id
      = some { consumer := { id := d.id, tag := reg.nextTag + 2, paused := d.paused },
               stream := reg.nextTag + 3 } ∧
    mapGet (applyRoomState (applyRoomState reg (singletonSnapshot peer label d))
        (singletonSnapshot peer label d)).consumers d.id
      = some { consumer := { id := d.id, tag := reg.nextTag, paused := d.paused },
               stream := reg.nextTag + 1 } := by
  have hds : snapshotDescriptors (singletonSnapshot peer label d) = [d] := by
    simp [snapshotDescriptors, singletonSnapshot]
  have hdel : ∀ st : HandlerState,
      deliverRoomState st (singletonSnapshot peer label d) = deliverDescriptor st d := by
    intro st
    rw [deliverRoomState, hds]
    rfl
  have h1 : deliverDescriptor (handlerInit reg) d
      = { registry := reg, pending := [{ data := d }], created := 0 } := by
    simp [deliverDescriptor, handlerInit, h]
  have h2 : deliverDescriptor { registry := reg, pending := [{ data := d }], created := 0 } d
      = { registry := reg, pending := [{ data := d }, { data := d }], created := 0 } := by
    simp [deliverDescriptor, h]
  have hboth : deliverRoomState (deliverRoomState (handlerInit reg)
      (singletonSnapshot peer label d)) (singletonSnapshot peer label d)
      = { registry := reg, pending := [{ data := d }, { data := d }], created := 0 } := by
    rw [hdel, hdel, h1, h2]
  have hresolve : resolveAll
      { registry := reg, pending := [{ data := d }, { data := d }], created := 0 }
      = { registry :=
            { consumers := mapSet
                (mapSet reg.consumers d.id
                  { consumer := { id := d.id, tag := reg.nextTag, paused := d.paused },
                    stream := reg.nextTag + 1 })
                d.id
                { consumer := { id := d.id, tag := reg.nextTag + 2, paused := d.paused },
                  stream := reg.nextTag + 3 },
              nextTag := reg.nextTag + 4 },
          pending := [], created := 2 } := rfl
  have hser1 : applyRoomState reg (singletonSnapshot peer label d)
      = (updateOrMakeConsumer reg d).registry := by
    rw [applyRoomState, hds]
    rfl
  have hu1 : (updateOrMakeConsumer reg d).registry
      = { consumers := mapSet reg.consumers d.id
            { consumer := { id := d.id, tag := reg.nextTag, paused := d.paused },
              stream := reg.nextTag + 1 },
          nextTag := reg.nextTag + 2 } := by
    unfold updateOrMakeConsumer
    rw [h]
  have hget1 : mapGet (mapSet reg.consumers d.id
      { consumer := { id := d.id, tag := reg.nextTag, paused := d.paused },
        stream := reg.nextTag + 1 }) d.id
      = some { consumer := { id := d.id, tag := reg.nextTag, paused := d.paused },
               stream := reg.nextTag + 1 } := mapGet_set_self _ _ _
  have hser2 : applyRoomState
      { consumers := mapSet reg.consumers d.id
          { consumer := { id := d.id, tag := reg.nextTag, paused := d.paused },
            stream := reg.nextTag + 1 },
        nextTag := reg.nextTag + 2 } (singletonSnapshot peer label d)
      = { consumers := mapSet reg.consumers d.id
            { consumer := { id := d.id, tag := reg.nextTag, paused := d.paused },
              stream := reg.nextTag + 1 },
          nextTag := reg.nextTag + 2 } := by
    rw [applyRoomState, hds]
    show (updateOrMakeConsumer _ d).registry = _
    rw [update_noop _ d _ hget1 rfl]
  refine ⟨by rw [hboth]; rfl, by rw [hboth, hresolve], ?_, ?_⟩
  · rw [hboth, hresolve]
    exact mapGet_set_self _ _ _
  · rw [hser1, hu1, hser2]
    exact hget1

theorem snapshot_application_interleaves_witness :
    (resolveAll (deliverRoomState (deliverRoomState (handlerInit initialRegistry)
        exampleSnapshot) exampleSnapshot)).created = 2 :=
  (snapshot_application_interleaves initialRegistry exampleDescriptor "peer1" .video
    (by decide)).2.1

/-! ## RoomClient local producers (produce, closeProducer, pause/resume,
track-"ended" teardown) -/

/-- `UserStatus` in `API.ts`. -/
inductive UserStatus
  | audioMutedByServer
  | videoMutedByServer
  | handRaised
deriving DecidableEq

/-- A `MediaStreamTrack` as this code observes it: object identity (`===`
comparisons) and media kind. -/
structure Track where
  tid : Nat
  kind : MediaKind
deriving DecidableEq

/-- `PRODUCER_UPDATE_REASONS` in `API.ts`. -/
inductive ProducerUpdateReason
  | pausedVideoBadConnection
deriving DecidableEq

/-- A mediasoup producer as `RoomClient` holds it: the server-assigned
producer id, the very track object passed to `produce`, the label stored
in `appData`, and the mutable paused flag. -/
structure Producer where
  pid : Nat
  track : Track
  label : ProducerLabel
  paused : Bool
deriving DecidableEq

/-- Messages `RoomClient` emits to the signaling channel in these paths:
the `produce` request driven by the transport's produce event, the
`producerClose` notification, and `producerUpdate`. -/
inductive SignalMsg
  | produceRequest (kind : MediaKind) (label : ProducerLabel)
  | producerClose (producerId : Nat)
  | producerUpdate (producerId : Nat) (paused : Bool) (label : ProducerLabel)
      (kind : MediaKind) (reason : Option ProducerUpdateReason)
deriving DecidableEq

/-- The errors `RoomClient.produce` throws synchronously, before any
signaling message goes out: `RoomClient is not able to produce media` and
`RoomClient is already producing <label>`. -/
inductive ProduceError
  | notAbleToProduce
  | alreadyProducing (label : ProducerLabel)
deriving DecidableEq

/-- The `RoomClient` state these operations touch: `this.producers`
(keyed by label, at most one each), `this.user.status`, whether
`this.producerTransport` exists, and the server's next producer id. -/
structure Room where
  producers : List (ProducerLabel × Producer)
  userStatus : List UserStatus
  hasProducerTransport : Bool
  nextProducerId : Nat
deriving DecidableEq

/-- `this.producers[label]`. -/
def lookupProducer (room : Room) (label : ProducerLabel) : Option Producer :=
  (room.producers.find? fun p => p.1 == label).map fun p => p.2

/-- Successful result of an operation: new state plus signaling emits. -/
structure RoomStep where
  room : Room
  sent : List SignalMsg
deriving DecidableEq

/-- `RoomClient.produce(track, label)`: throws synchronously — emitting
nothing — when no producer transport exists or a producer already holds
the label; otherwise the transport produce drives one `produce` request
(the server assigns the producer id) and the producer is recorded under
its label with `appData.label = label`. -/
def produce (room : Room) (track : Track) (label : ProducerLabel) :
    Except ProduceError RoomStep :=
  if !room.hasProducerTransport then .error .notAbleToProduce
  else match lookupProducer room label with
  | some _ => .error (.alreadyProducing label)
  | none =>
    let producer : Producer :=
      { pid := room.nextProducerId, track := track, label := label, paused := false }
    .ok { room := { room with
            producers := room.producers ++ [(label, producer)],
            nextProducerId := room.nextProducerId + 1 },
          sent := [.produceRequest track.kind label] }

/-- Result of `closeProducer` and of the track-"ended" listener: the new
state, the producer objects closed locally, and the signaling emits. -/
structure CloseResult where
  room : Room
  closedObjects : List Nat
  sent : List SignalMsg
deriving DecidableEq

/-- `RoomClient.closeProducer(label)`: a no-op on a missing label;
otherwise close the producer object, notify the signaling channel with
`producerClose`, and delete the label's entry from `this.producers`. -/
def closeProducer (room : Room) (label : ProducerLabel) : CloseResult :=
  match lookupProducer room label with
  | none => { room := room, closedObjects := [], sent := [] }
  | some producer =>
    { room := { room with producers := room.producers.filter fun p => !(p.1 == label) },
      closedObjects := [producer.pid],
      sent := [.producerClose producer.pid] }

/-- The listener `produce` registers on the track's "ended" event, closing
over `label` and `track`: it calls `closeProducer(label)` only when the
currently registered producer for the label exists and its track `===`
the ended track. -/
def trackEndedHandler (room : Room) (label : ProducerLabel) (track : Track) : CloseResult :=
  match lookupProducer room label with
  | some producer =>
    if producer.track == track then closeProducer room label
    else { room := room, closedObjects := [], sent := [] }
  | none => { room := room, closedObjects := [], sent := [] }

/-- `RoomClient.updateProducer`: pause or resume the producer object in
place, then emit `producerUpdate` with the producer's id, label
(`appData.label`), kind and the optional reason. -/
def updateProducer (room : Room) (producer : Producer) (paused : Bool)
    (reason : Option ProducerUpdateReason) : RoomStep :=
  { room := { room with producers := room.producers.map fun q =>
      if q.1 == producer.label then (q.1, { producer with paused := paused }) else q },
    sent := [.producerUpdate producer.pid paused producer.label producer.track.kind reason] }

/-- `RoomClient.pauseVideo(reason?)`. -/
def pauseVideo (room : Room) (reason : Option ProducerUpdateReason) : RoomStep :=
  match lookupProducer room .video with
  | none => { room := room, sent := [] }
  | some producer => updateProducer room producer true reason

/-- `RoomClient.resumeVideo`: refuses silently while
`VideoMutedByServer` is in the user's status. -/
def resumeVideo (room : Room) : RoomStep :=
  match lookupProducer room .video with
  | none => { room := room, sent := [] }
  | some producer =>
    if room.userStatus.contains .videoMutedByServer then { room := room, sent := [] }
    else updateProducer room producer false none

/-- `RoomClient.pauseAudio`. -/
def pauseAudio (room : Room) : RoomStep :=
  match lookupProducer room .audio with
  | none => { room := room, sent := [] }
  | some producer => updateProducer room producer true none

/-- `RoomClient.resumeAudio`: refuses silently while
`AudioMutedByServer` is in the user's status. -/
def resumeAudio (room : Room) : RoomStep :=
  match lookupProducer room .audio with
  | none => { room := room, sent := [] }
  | some producer =>
    if room.userStatus.contains .audioMutedByServer then { room := room, sent := [] }
    else updateProducer room producer false none

theorem gen_find?_append_none {α : Type} {m l : List α} {p : α → Bool}
    (h : m.find? p = none) : (m ++ l).find? p = l.find? p := by
  induction m with
  | nil => simp
  | cons a m ih =>
    cases hpa : p a
    · rw [List.find?_cons_of_neg _ (by simp [hpa])] at h
      rw [List.cons_append, List.find?_cons_of_neg _ (by simp [hpa])]
      exact ih h
    · rw [List.find?_cons_of_pos _ hpa] at h
      cases h

theorem find?_filter_not (m : List (ProducerLabel × Producer)) (label : ProducerLabel) :
    (m.filter fun p => !(p.1 == label)).find? (fun p => p.1 == label) = none := by
  rw [List.find?_eq_none]
  intro x hx
  have hmem := List.of_mem_filter hx
  simp at hmem
  simp [hmem]

theorem lookupProducer_eq_none_find? (room : Room) (label : ProducerLabel)
    (h : lookupProducer room label = none) :
    room.producers.find? (fun p => p.1 == label) = none := by
  unfold lookupProducer at h
  cases hf : room.producers.find? (fun p => p.1 == label)
  · rfl
  · rw [hf] at h
    cases h

theorem find?_append_self (m : List (ProducerLabel × Producer)) (label : ProducerLabel)
    (producer : Producer) (h : m.find? (fun p => p.1 == label) = none) :
    (m ++ [(label, producer)]).find? (fun p => p.1 == label) = some (label, producer) := by
  rw [gen_find?_append_none h]
  simp

theorem find?_map_update (m : List (ProducerLabel × Producer)) (label : ProducerLabel)
    (p2 : Producer) (pr : ProducerLabel × Producer)
    (h : m.find? (fun q => q.1 == label) = some pr) :
    (m.map fun q => if q.1 == label then (q.1, p2) else q).find? (fun q => q.1 == label)
      = some (pr.1, p2) := by
  induction m with
  | nil => cases h
  | cons a m ih =>
    cases hpa : a.1 == label
    · rw [List.find?_cons_of_neg _ (by simp [hpa])] at h
      rw [List.map_cons]
      have ha : (if a.1 == label then (a.1, p2) else a) = a := by simp [hpa]
      rw [ha, List.find?_cons_of_neg _ (by simp [hpa])]
      exact ih h
    · have ha : a = pr := by
        simp [List.find?_cons, hpa] at h
        exact h
      subst ha
      rw [List.map_cons]
      have hif : (if a.1 == label then (a.1, p2) else a) = (a.1, p2) := by simp [hpa]
      rw [hif]
      simp [List.find?_cons, hpa]

theorem produce_ok (room : Room) (track : Track) (label : ProducerLabel)
    (htrans : room.hasProducerTransport = true)
    (hfree : lookupProducer room label = none) :
    produce room track label = .ok
      { room := { room with
          producers := room.producers
            ++ [(label, { pid := room.nextProducerId, track := track, label := label,
                          paused := false })],
          nextProducerId := room.nextProducerId + 1 },
        sent := [.produceRequest track.kind label] } := by
  unfold produce
  rw [hfree]
  simp [htrans]

theorem closeProducer_hit (room : Room) (label : ProducerLabel) (p : Producer)
    (h : lookupProducer room label = some p) :
    closeProducer room label
      = { room := { room with producers := room.producers.filter fun q => !(q.1 == label) },
          closedObjects := [p.pid], sent := [.producerClose p.pid] } := by
  unfold closeProducer
  rw [h]

theorem produce_then_close (room : Room) (t : Track) (label : ProducerLabel)
    (htrans : room.hasProducerTransport = true)
    (hfree : lookupProducer room label = none) :
    ∃ s1 : RoomStep, produce room t label = .ok s1 ∧
      lookupProducer s1.room label
        = some { pid := room.nextProducerId, track := t, label := label, paused := false } ∧
      lookupProducer (closeProducer s1.room label).room label = none ∧
      (closeProducer s1.room label).room.hasProducerTransport = true ∧
      s1.room.hasProducerTransport = true := by
  have hfind := lookupProducer_eq_none_find? room label hfree
  have hl1 : lookupProducer { room with
      producers := room.producers
        ++ [(label, { pid := room.nextProducerId, track := t, label := label,
                      paused := false })],
      nextProducerId := room.nextProducerId + 1 } label
      = some { pid := room.nextProducerId, track := t, label := label, paused := false } := by
    show ((room.producers
        ++ [(label, ({ pid := room.nextProducerId, track := t, label := label,
                       paused := false } : Producer))]).find?
          fun p => p.1 == label).map (fun p => p.2)
      = some ({ pid := room.nextProducerId, track := t, label := label,
                paused := false } : Producer)
    rw [find?_append_self _ _ _ hfind]
    rfl
  have hc := closeProducer_hit _ label _ hl1
  refine ⟨_, produce_ok room t label htrans hfree, hl1, ?_, ?_, htrans⟩
  · rw [hc]
    show (((room.producers
        ++ [(label, ({ pid := room.nextProducerId, track := t, label := label,
                       paused := false } : Producer))]).filter fun q => !(q.1 == label)).find?
          (fun p => p.1 == label)).map (fun p => p.2) = none
    rw [find?_filter_not]
    rfl
  · rw [hc]
    exact htrans

/-- C5: `produce` fails with `AlreadyProducing` whenever a producer
already holds the label — synchronously, emitting nothing to the
signaling channel (the error paths of `produce` send no message) — while
after an explicit `closeProducer` the label is reusable: produce, close,
produce succeeds, and produce twice without an intervening close fails. -/
theorem produce_already_producing (room : Room) (t1 t2 : Track) (label : ProducerLabel)
    (htrans : room.hasProducerTransport = true) :
    (∀ p, lookupProducer room label = some p →
      produce room t1 label = .error (.alreadyProducing label)) ∧
    (lookupProducer room label = none →
      ∃ s1 : RoomStep, produce room t1 label = .ok s1 ∧
        produce s1.room t2 label = .error (.alreadyProducing label) ∧
        ∃ s3 : RoomStep, produce (closeProducer s1.room label).room t2 label = .ok s3) := by
  constructor
  · intro p hp
    unfold produce
    rw [hp]
    simp [htrans]
  · intro hfree
    obtain ⟨s1, hok, hl1, hl2, htrans2, ht1⟩ := produce_then_close room t1 label htrans hfree
    refine ⟨s1, hok, ?_, ?_⟩
    · unfold produce
      rw [hl1]
      simp [ht1]
    · exact ⟨_, produce_ok _ t2 label htrans2 hl2⟩

/-- Room with no producers, a producer transport, and no status flags. -/
def emptyRoom : Room :=
  { producers := [], userStatus := [], hasProducerTransport := true, nextProducerId := 0 }

/-- A concrete audio track. -/
def audioTrack1 : Track := { tid := 1, kind := .audio }

/-- Another concrete audio track, a distinct object. -/
def audioTrack2 : Track := { tid := 2, kind := .audio }

/-- Room already producing audio from `audioTrack1`. -/
def audioProducerRoom : Room :=
  { producers := [(.audio, { pid := 0, track := audioTrack1, label := .audio, paused := false })],
    userStatus := [], hasProducerTransport := true, nextProducerId := 1 }

theorem produce_already_producing_witness :
    produce audioProducerRoom audioTrack2 .audio = .error (.alreadyProducing .audio) ∧
    (∃ s1 : RoomStep, produce emptyRoom audioTrack1 .audio = .ok s1 ∧
      produce s1.room audioTrack2 .audio = .error (.alreadyProducing .audio) ∧
      ∃ s3 : RoomStep, produce (closeProducer s1.room .audio).room audioTrack2 .audio = .ok s3) :=
  ⟨(produce_already_producing audioProducerRoom audioTrack2 audioTrack2 .audio rfl).1
      { pid := 0, track := audioTrack1, label := .audio, paused := false } rfl,
   (produce_already_producing emptyRoom audioTrack1 audioTrack2 .audio rfl).2 rfl⟩

/-- C8: a track's "ended" notification takes the identical teardown path
as an explicit `closeProducer` whenever the registered producer's track
is the ended track: the handler call equals the `closeProducer` call,
which closes the producer object, notifies the signaling channel with
`producerClose`, and removes the label's registry entry. -/
theorem track_ended_teardown (room : Room) (label : ProducerLabel) (track : Track)
    (p : Producer) (h : lookupProducer room label = some p) (ht : p.track = track) :
    trackEndedHandler room label track = closeProducer room label ∧
    closeProducer room label
      = { room := { room with producers := room.producers.filter fun q => !(q.1 == label) },
          closedObjects := [p.pid], sent := [.producerClose p.pid] } ∧
    lookupProducer (closeProducer room label).room label = none := by
  have hbeq : (p.track == track) = true := by
    rw [ht]
    simp
  have h1 : trackEndedHandler room label track = closeProducer room label := by
    unfold trackEndedHandler
    rw [h]
    simp [hbeq]
  have h2 := closeProducer_hit room label p h
  refine ⟨h1, h2, ?_⟩
  rw [h2]
  show ((room.producers.filter fun q => !(q.1 == label)).find?
      fun q => q.1 == label).map (fun q => q.2) = none
  rw [find?_filter_not]
  rfl

theorem track_ended_teardown_witness :
    trackEndedHandler audioProducerRoom .audio audioTrack1
      = closeProducer audioProducerRoom .audio ∧
    lookupProducer (closeProducer audioProducerRoom .audio).room .audio = none :=
  have h := track_ended_teardown audioProducerRoom .audio audioTrack1
    { pid := 0, track := audioTrack1, label := .audio, paused := false } rfl rfl
  ⟨h.1, h.2.2⟩

/-- C10: a stale "ended" notification never tears down a successor
producer: after produce(track1), closeProducer, produce(track2) on the
same label with distinct tracks, the ended listener's guard
(`producer.track === track`) fails for track1, so the handler is a no-op
and the track2 producer stays registered. -/
theorem stale_ended_event_ignored (room : Room) (t1 t2 : Track) (label : ProducerLabel)
    (htrans : room.hasProducerTransport = true)
    (hfree : lookupProducer room label = none) (hne : t2 ≠ t1) :
    ∃ s1 s3 : RoomStep,
      produce room t1 label = .ok s1 ∧
      produce (closeProducer s1.room label).room t2 label = .ok s3 ∧
      trackEndedHandler s3.room label t1
        = { room := s3.room, closedObjects := [], sent := [] } ∧
      ∃ p2, lookupProducer s3.room label = some p2 ∧ p2.track = t2 := by
  obtain ⟨s1, hok, hl1, hl2, htrans2, ht1⟩ := produce_then_close room t1 label htrans hfree
  obtain ⟨s3, hok3, hl3, _, _, _⟩ :=
    produce_then_close (closeProducer s1.room label).room t2 label htrans2 hl2
  have hb : (t2 == t1) = false := beq_eq_false_iff_ne.mpr hne
  refine ⟨s1, s3, hok, hok3, ?_, ⟨_, hl3, rfl⟩⟩
  unfold trackEndedHandler
  rw [hl3]
  simp [hb]

theorem stale_ended_event_ignored_witness :
    ∃ s1 s3 : RoomStep,
      produce emptyRoom audioTrack1 .audio = .ok s1 ∧
      produce (closeProducer s1.room .audio).room audioTrack2 .audio = .ok s3 ∧
      trackEndedHandler s3.room .audio audioTrack1
        = { room := s3.room, closedObjects := [], sent := [] } ∧
      ∃ p2, lookupProducer s3.room .audio = some p2 ∧ p2.track = audioTrack2 :=
  stale_ended_event_ignored emptyRoom audioTrack1 audioTrack2 .audio rfl rfl (by decide)

/-- C6: while the server-imposed mute status for a label is active,
resume of that label is silently refused: pausing and then immediately
resuming leaves the producer paused, the resume changes no state and
emits nothing to the signaling channel (stated for video under
`VideoMutedByServer` and audio under `AudioMutedByServer`). -/
theorem resume_refused_under_server_mute (room : Room) :
    (∀ p, lookupProducer room .video = some p → p.label = .video →
      room.userStatus.contains .videoMutedByServer = true →
      (lookupProducer (pauseVideo room none).room .video = some { p with paused := true } ∧
        resumeVideo (pauseVideo room none).room
          = { room := (pauseVideo room none).room, sent := [] } ∧
        lookupProducer (resumeVideo (pauseVideo room none).room).room .video
          = some { p with paused := true })) ∧
    (∀ p, lookupProducer room .audio = some p → p.label = .audio →
      room.userStatus.contains .audioMutedByServer = true →
      (lookupProducer (pauseAudio room).room .audio = some { p with paused := true } ∧
        resumeAudio (pauseAudio room).room
          = { room := (pauseAudio room).room, sent := [] } ∧
        lookupProducer (resumeAudio (pauseAudio room).room).room .audio
          = some { p with paused := true })) := by
  constructor
  · intro p hp hl hmute
    have hpr : ∃ pr, room.producers.find? (fun q => q.1 == ProducerLabel.video) = some pr := by
      unfold lookupProducer at hp
      cases hf : room.producers.find? (fun q => q.1 == ProducerLabel.video)
      · rw [hf] at hp
        cases hp
      · exact ⟨_, rfl⟩
    obtain ⟨pr, hfind⟩ := hpr
    have hpv : pauseVideo room none = updateProducer room p true none := by
      unfold pauseVideo
      rw [hp]
    have hroom2 : (pauseVideo room none).room
        = { room with producers := room.producers.map fun q =>
            if q.1 == ProducerLabel.video then (q.1, { p with paused := true }) else q } := by
      rw [hpv]
      unfold updateProducer
      rw [hl]
    have hl2 : lookupProducer (pauseVideo room none).room .video
        = some { p with paused := true } := by
      rw [hroom2]
      show ((room.producers.map fun q =>
          if q.1 == ProducerLabel.video then (q.1, { p with paused := true }) else q).find?
            fun q => q.1 == ProducerLabel.video).map (fun q => q.2)
        = some { p with paused := true }
      rw [find?_map_update _ _ _ pr hfind]
      rfl
    have hus : (pauseVideo room none).room.userStatus = room.userStatus := by
      rw [hroom2]
    have hres : resumeVideo (pauseVideo room none).room
        = { room := (pauseVideo room none).room, sent := [] } := by
      unfold resumeVideo
      rw [hl2, hus, hmute]
      simp
    exact ⟨hl2, hres, by rw [hres]; exact hl2⟩
  · intro p hp hl hmute
    have hpr : ∃ pr, room.producers.find? (fun q => q.1 == ProducerLabel.audio) = some pr := by
      unfold lookupProducer at hp
      cases hf : room.producers.find? (fun q => q.1 == ProducerLabel.audio)
      · rw [hf] at hp
        cases hp
      · exact ⟨_, rfl⟩
    obtain ⟨pr, hfind⟩ := hpr
    have hpa : pauseAudio room = updateProducer room p true none := by
      unfold pauseAudio
      rw [hp]
    have hroom2 : (pauseAudio room).room
        = { room with producers := room.producers.map fun q =>
            if q.1 == ProducerLabel.audio then (q.1, { p with paused := true }) else q } := by
      rw [hpa]
      unfold updateProducer
      rw [hl]
    have hl2 : lookupProducer (pauseAudio room).room .audio
        = some { p with paused := true } := by
      rw [hroom2]
      show ((room.producers.map fun q =>
          if q.1 == ProducerLabel.audio then (q.1, { p with paused := true }) else q).find?
            fun q => q.1 == ProducerLabel.audio).map (fun q => q.2)
        = some { p with paused := true }
      rw [find?_map_update _ _ _ pr hfind]
      rfl
    have hus : (pauseAudio room).room.userStatus = room.userStatus := by
      rw [hroom2]
    have hres : resumeAudio (pauseAudio room).room
        = { room := (pauseAudio room).room, sent := [] } := by
      unfold resumeAudio
      rw [hl2, hus, hmute]
      simp
    exact ⟨hl2, hres, by rw [hres]; exact hl2⟩

/-- Room producing video from a concrete track while the server-imposed
video mute status is active. -/
def mutedVideoRoom : Room :=
  { producers := [(.video,
      { pid := 3, track := { tid := 4, kind := .video }, label := .video, paused := false })],
    userStatus := [.videoMutedByServer], hasProducerTransport := true, nextProducerId := 4 }

theorem resume_refused_under_server_mute_witness :
    resumeVideo (pauseVideo mutedVideoRoom none).room
      = { room := (pauseVideo mutedVideoRoom none).room, sent := [] } ∧
    lookupProducer (resumeVideo (pauseVideo mutedVideoRoom none).room).room .video
      = some { pid := 3, track := { tid := 4, kind := .video }, label := .video,
               paused := true } :=
  have h := (resume_refused_under_server_mute mutedVideoRoom).1
    { pid := 3, track := { tid := 4, kind := .video }, label := .video, paused := false }
    rfl rfl rfl
  ⟨h.2.1, h.2.2⟩

/-! ## useConnectCall disconnect/reconnect state machine
(src/useConnectCall.ts: the `bindClient` disconnect handler, the
auto-initialization effect and `reinitializeClient`) -/

/-- Modelled from the spec: the `DisconnectReason` enum that
`useConnectCall.ts` imports from `./API` is not part of the source
snapshot (only this caller is).  Spec §4.1: a reason is either deliberate
— an explicit disconnect, or being superseded by another client of the
same identity — or an unexpected transport error. -/
inductive DisconnectReason
  | deliberate
  | superseded
  | error
deriving DecidableEq

/-- A MediaStream as the hook stores it for a local producer: its track
lists by kind (`getAudioTracks` / `getVideoTracks`). -/
structure StreamObj where
  audioTracks : List Track
  videoTracks : List Track
deriving DecidableEq

/-- One entry of the hook's `localProducers` state: `{ stream, paused }`. -/
structure LocalProducerInfo where
  stream : StreamObj
  paused : Bool
deriving DecidableEq

/-- The aspect of the freshly connected `RoomClient` that
`reinitializeClient` drives: which labels got re-produced, with which
track object. -/
structure ClientModel where
  produced : List (ProducerLabel × Track)
deriving DecidableEq

/-- The hook state the reconnection path reads and writes: the client
handle, `localProducers`, `automaticallyInit` and `disconnectReason`. -/
structure HookState where
  client : Option ClientModel
  localProducers : List (ProducerLabel × LocalProducerInfo)
  automaticallyInit : Bool
  disconnectReason : Option DisconnectReason
deriving DecidableEq

/-- `producers[label]` inside `reinitializeClient`. -/
def lookupLocalProducer (ps : List (ProducerLabel × LocalProducerInfo))
    (label : ProducerLabel) : Option LocalProducerInfo :=
  (ps.find? fun p => p.1 == label).map fun p => p.2

/-- The track `reinitializeClient` picks for a label:
`label === audio ? stream.getAudioTracks()[0] : stream.getVideoTracks()[0]`. -/
def producerTrack (label : ProducerLabel) (p : LocalProducerInfo) : Option Track :=
  if label == .audio then p.stream.audioTracks.head? else p.stream.videoTracks.head?

/-- `Object.values(ProducerLabel)`: the enum's declaration order. -/
def allLabels : List ProducerLabel := [.video, .audio, .screenshare]

/-- The produce loop of `reinitializeClient` after a successful connect:
each label present in the inherited `producers` is re-produced with the
first track of its stored stream of the matching kind.  A stream with no
such track yields no producer: `client.produce(undefined, label)` rejects
before registering anything, and the rejection of this un-awaited call is
dropped. -/
def reinitializeClient (producers : List (ProducerLabel × LocalProducerInfo)) : ClientModel :=
  { produced := allLabels.filterMap fun label =>
      match lookupLocalProducer producers label with
      | some p => (producerTrack label p).map fun t => (label, t)
      | none => none }

/-- The `disconnect` handler `bindClient` installs: close and clear the
client, record the reason, and set `automaticallyInit` only when the
reason is `DisconnectReason.error`. -/
def handleDisconnect (st : HookState) (reason : DisconnectReason) : HookState :=
  { st with
    client := none
    disconnectReason := some reason
    automaticallyInit := if reason == .error then true else st.automaticallyInit }

/-- The client-creating `useEffect`: when there is no client and
`automaticallyInit` holds, clear the flag and the recorded reason and
run `reinitializeClient(localProducers)` (modelled for the
successful-connect case the claim is about). -/
def initEffect (st : HookState) : HookState :=
  if st.client == none && st.automaticallyInit then
    { st with
      automaticallyInit := false
      disconnectReason := none
      client := some (reinitializeClient st.localProducers) }
  else st

theorem reinitialize_produced_mem (producers : List (ProducerLabel × LocalProducerInfo))
    (label : ProducerLabel) (t : Track) :
    (label, t) ∈ (reinitializeClient producers).produced ↔
      ∃ p, lookupLocalProducer producers label = some p ∧ producerTrack label p = some t := by
  unfold reinitializeClient
  rw [List.mem_filterMap]
  constructor
  · rintro ⟨l2, _, hmatch⟩
    cases hc : lookupLocalProducer producers l2 with
    | none =>
      rw [hc] at hmatch
      cases hmatch
    | some p =>
      rw [hc] at hmatch
      have hmatch2 : Option.map (fun t2 => (l2, t2)) (producerTrack l2 p)
          = some (label, t) := hmatch
      cases htc : producerTrack l2 p with
      | none =>
        rw [htc] at hmatch2
        cases hmatch2
      | some t2 =>
        rw [htc] at hmatch2
        simp at hmatch2
        obtain ⟨rfl, rfl⟩ := hmatch2
        exact ⟨p, hc, htc⟩
  · rintro ⟨p, hp, ht⟩
    refine ⟨label, ?_, ?_⟩
    · cases label <;> simp [allLabels]
    · rw [hp]
      show Option.map (fun t2 => (label, t2)) (producerTrack label p) = some (label, t)
      rw [ht]
      rfl

/-- C7: a disconnect whose reason is deliberate (explicit disconnect or
superseded) does not trigger reconnection — the init effect does nothing
and no client comes back — while a transport-error disconnect triggers
automatic re-initialization, and the new client's produced labels are
exactly the labels of the local producers held at the moment of
disconnect, each with the same underlying track (a label without a live
track is simply not re-produced). -/
theorem reconnect_policy (st : HookState) (reason : DisconnectReason)
    (hconn : st.automaticallyInit = false) :
    (reason ≠ .error →
      initEffect (handleDisconnect st reason) = handleDisconnect st reason ∧
      (handleDisconnect st reason).client = none) ∧
    (reason = .error →
      ∃ c, (initEffect (handleDisconnect st reason)).client = some c ∧
        (∀ label p t, lookupLocalProducer st.localProducers label = some p →
          producerTrack label p = some t → (label, t) ∈ c.produced) ∧
        (∀ label t, (label, t) ∈ c.produced →
          ∃ p, lookupLocalProducer st.localProducers label = some p ∧
            producerTrack label p = some t)) := by
  constructor
  · intro hne
    have hb : (reason == DisconnectReason.error) = false := beq_eq_false_iff_ne.mpr hne
    constructor
    · unfold initEffect handleDisconnect
      simp [hb, hconn]
    · rfl
  · intro he
    subst he
    refine ⟨reinitializeClient st.localProducers, ?_, ?_, ?_⟩
    · unfold initEffect handleDisconnect
      simp
    · intro label p t hp ht
      exact (reinitialize_produced_mem st.localProducers label t).mpr ⟨p, hp, ht⟩
    · intro label t hmem
      exact (reinitialize_produced_mem st.localProducers label t).mp hmem

/-- A stream holding the single audio track `audioTrack1`. -/
def exampleStream : StreamObj := { audioTracks := [audioTrack1], videoTracks := [] }

/-- A connected hook state producing audio from `exampleStream`. -/
def hookConnected : HookState :=
  { client := some { produced := [(.audio, audioTrack1)] },
    localProducers := [(.audio, { stream := exampleStream, paused := false })],
    automaticallyInit := false, disconnectReason := none }

theorem reconnect_policy_witness :
    (initEffect (handleDisconnect hookConnected .deliberate)
        = handleDisconnect hookConnected .deliberate ∧
      (handleDisconnect hookConnected .deliberate).client = none) ∧
    (initEffect (handleDisconnect hookConnected .error)).client.isSome = true :=
  ⟨(reconnect_policy hookConnected .deliberate rfl).1 (by decide), by
    obtain ⟨c, hc, _, _⟩ := (reconnect_policy hookConnected .error rfl).2 rfl
    simp [hc]⟩

end CCC
